import Mathlib

/-!
Shallow embedding of the pykiq job-enqueueing library (protocol constants,
namespace resolution, payload assembly, job-id generation, the dispatcher,
and the Redis-backed connector state machine), together with theorems
settling the specification claims about it.

Python values are embedded as an inductive `PyVal`; Python dictionaries as
insertion-ordered association lists (`PyMap`); epoch-second timestamps as
rationals (`datetime` arithmetic is exact to the microsecond, and
`timestamp()` is modelled as the identity on the clock value); randomness
(`secrets.token_hex`) as an explicit byte-list argument.
-/

namespace Pykiq

/-! ## protocol.py -/

def SIDEKIQ_CLASS_NAME : String := "class"

def SIDEKIQ_SCHEDULE_AT : String := "at"

def SIDEKIQ_QUEUE : String := "queue"

def SIDEKIQ_ARGS : String := "args"

def SIDEKIQ_JOB_ID : String := "jid"

def SIDEKIQ_CREATED : String := "created_at"

def SIDEKIQ_ENQUEUED : String := "enqueued_at"

def SIDEKIQ_QUEUES_NAME : String := "queues"

/-- The template `SIDEKIQ_QUEUE_TPL = "queue:\x7b\x7d"`, applied via `.format(name)`. -/
def SIDEKIQ_QUEUE_TPL_format (name : String) : String := "queue:" ++ name

/-! ## Python values and dictionaries -/

/-- A primitive (or list) value stored in an enqueue payload. -/
inductive PyVal where
  | str (s : String)
  | num (q : ℚ)
  | bool (b : Bool)
  | list (l : List PyVal)

/-- A Python dict as an insertion-ordered association list without
duplicate keys (assignment updates in place or appends). -/
abbrev PyMap := List (String × PyVal)

/-- Assignment `m[k] = v`: replace the binding of `k` in place if present,
otherwise append it. -/
def mapSet (m : PyMap) (k : String) (v : PyVal) : PyMap :=
  match m with
  | [] => [(k, v)]
  | (k', v') :: rest =>
      if k' = k then (k, v) :: rest else (k', v') :: mapSet rest k v

/-- Lookup `m.get(k)` / `m[k]`. -/
def mapGet (m : PyMap) (k : String) : Option PyVal :=
  match m with
  | [] => none
  | (k', v') :: rest => if k' = k then some v' else mapGet rest k

theorem mapGet_mapSet (m : PyMap) (k k' : String) (v : PyVal) :
    mapGet (mapSet m k v) k' = if k = k' then some v else mapGet m k' := by
  induction m with
  | nil =>
      by_cases h : k = k' <;> simp [mapSet, mapGet, h]
  | cons hd tl ih =>
      obtain ⟨k₀, v₀⟩ := hd
      by_cases h0 : k₀ = k
      · subst h0
        by_cases h : k₀ = k' <;> simp [mapSet, mapGet, h]
      · by_cases h : k₀ = k'
        · subst h
          have hkk : k ≠ k₀ := fun hh => h0 hh.symm
          simp [mapSet, mapGet, h0, hkk]
        · simp [mapSet, mapGet, h0, h, ih]

/-! ## Namespaces

`base.Namespace` resolves a `NamedObject`'s full name from its name;
`sidekiq._EmptySidekiqNamespace` is the default implementation.
`namespaces.QueueNamespace` (imported from `connector` by
`namespaces.py`) works on plain queue-name strings instead. -/

/-- The method `_EmptySidekiqNamespace.get_full_name`: the default full name of a
named object, `SIDEKIQ_QUEUE_TPL.format(instance.get_name())`. -/
def EmptySidekiqNamespace.get_full_name (instance_name : String) : String :=
  SIDEKIQ_QUEUE_TPL_format instance_name

/-- Modelled from the spec: `QueueNamespace.get_name`, the base namespace
class that `namespaces.py` imports from `connector.py` but that is missing
from the sources; per the spec, the default resolution of a queue short
name is the fixed template `"queue:{shortName}"`. -/
def QueueNamespace.get_name (queue_name : String) : String :=
  "queue:" ++ queue_name

/-- The method `PrefixedNamespace.get_name`: the template `"\x7b\x7d:\x7b\x7d"` formatted with the stored
prefix and `super().get_name(queue_name)`. -/
def PrefixedNamespace.get_name (prefixVal : String) (queue_name : String) : String :=
  prefixVal ++ ":" ++ QueueNamespace.get_name queue_name

/-! ## SidekiqQueue identity and naming

A `SidekiqQueue` defines no custom `__eq__`, so Python compares instances
by object identity; `oid` stands for the CPython object id, and distinct
constructions allocate distinct ids. -/

structure SidekiqQueue where
  oid : Nat
  queue_name : String
deriving DecidableEq, Repr

/-- The method `SidekiqQueue.get_name`. -/
def SidekiqQueue.get_name (q : SidekiqQueue) : String := q.queue_name

/-- The method `SidekiqQueue.get_full_name` with the default namespace
(`namespace or _EmptySidekiqNamespace()`). -/
def SidekiqQueue.get_full_name (q : SidekiqQueue) : String :=
  EmptySidekiqNamespace.get_full_name q.get_name

/-- Default Python `==` on two `SidekiqQueue` instances: identity. -/
def SidekiqQueue.pyEq (a b : SidekiqQueue) : Bool := a.oid == b.oid

/-- C5: a default-namespaced queue named "low" resolves to the full
backend name "queue:low", and a prefixed namespace with prefix "app"
wrapping queue "low" resolves to "app:queue:low". -/
theorem C5_namespace_resolution :
    SidekiqQueue.get_full_name ⟨0, "low"⟩ = "queue:low" ∧
    PrefixedNamespace.get_name "app" "low" = "app:queue:low" := by
  constructor <;> rfl

/-- C9: two queue instances constructed with the same short name compare
unequal as Python objects (distinct identities), yet their full-name
resolutions coincide. -/
theorem C9_same_name_distinct_queues (n₁ n₂ : Nat) (s : String) (h : n₁ ≠ n₂) :
    SidekiqQueue.pyEq ⟨n₁, s⟩ ⟨n₂, s⟩ = false ∧
    SidekiqQueue.get_full_name ⟨n₁, s⟩ = SidekiqQueue.get_full_name ⟨n₂, s⟩ := by
  refine ⟨?_, rfl⟩
  simpa [SidekiqQueue.pyEq] using h

/-- Witness for C9 at two concrete instances named "low". -/
theorem C9_same_name_distinct_queues_witness :
    SidekiqQueue.pyEq ⟨0, "low"⟩ ⟨1, "low"⟩ = false ∧
    SidekiqQueue.get_full_name ⟨0, "low"⟩ = SidekiqQueue.get_full_name ⟨1, "low"⟩ :=
  C9_same_name_distinct_queues 0 1 "low" (by decide)

/-! ## secrets.token_hex and Sidekiq.__generate_jid -/

def hexDigits : List Char := "0123456789abcdef".data

def hexDigit (n : Nat) : Char := hexDigits.getD n '0'

/-- Lowercase hex encoding of a byte list, two digits per byte. -/
def hexEncodeBytes : List Nat → List Char
  | [] => []
  | b :: rest => hexDigit (b / 16) :: hexDigit (b % 16) :: hexEncodeBytes rest

/-- Stdlib `secrets.token_hex` applied to an explicit list of random bytes. -/
def token_hex (randomBytes : List Nat) : String :=
  String.mk (hexEncodeBytes randomBytes)

def number_of_bytes_in_jid : Nat := 12

/-- The method `Sidekiq.__generate_jid`, with the 12 random bytes drawn by
`token_hex` made an explicit argument. -/
def Sidekiq.generate_jid (randomBytes : List Nat) : String :=
  token_hex randomBytes

theorem hexEncodeBytes_length (bs : List Nat) :
    (hexEncodeBytes bs).length = 2 * bs.length := by
  induction bs with
  | nil => rfl
  | cons b rest ih => simp [hexEncodeBytes, ih]; ring

theorem hexDigit_mem (n : Nat) (h : n < 16) : hexDigit n ∈ hexDigits := by
  revert n
  decide

theorem hexEncodeBytes_mem (bs : List Nat) (hb : ∀ b ∈ bs, b < 256) :
    ∀ c ∈ hexEncodeBytes bs, c ∈ hexDigits := by
  induction bs with
  | nil => intro c hc; cases hc
  | cons b rest ih =>
      intro c hc
      have hblt : b < 256 := hb b (by simp)
      simp only [hexEncodeBytes, List.mem_cons] at hc
      rcases hc with hc | hc | hc
      · subst hc; exact hexDigit_mem _ (Nat.div_lt_of_lt_mul (by omega))
      · subst hc; exact hexDigit_mem _ (Nat.mod_lt _ (by omega))
      · exact ih (fun x hx => hb x (by simp [hx])) c hc

theorem hexDigit_injOn : ∀ m < 16, ∀ n < 16, hexDigit m = hexDigit n → m = n := by
  decide

theorem hexEncodeBytes_inj : ∀ (b₁ b₂ : List Nat),
    (∀ b ∈ b₁, b < 256) → (∀ b ∈ b₂, b < 256) →
    hexEncodeBytes b₁ = hexEncodeBytes b₂ → b₁ = b₂ := by
  intro b₁
  induction b₁ with
  | nil =>
      intro b₂ _ _ h
      cases b₂ with
      | nil => rfl
      | cons c rest => simp [hexEncodeBytes] at h
  | cons a rest ih =>
      intro b₂ h₁ h₂ h
      cases b₂ with
      | nil => simp [hexEncodeBytes] at h
      | cons c rest₂ =>
          simp only [hexEncodeBytes, List.cons.injEq] at h
          obtain ⟨hhi, hlo, htl⟩ := h
          have ha : a < 256 := h₁ a (by simp)
          have hc : c < 256 := h₂ c (by simp)
          have e₁ : a / 16 = c / 16 :=
            hexDigit_injOn _ (Nat.div_lt_of_lt_mul (by omega))
              _ (Nat.div_lt_of_lt_mul (by omega)) hhi
          have e₂ : a % 16 = c % 16 :=
            hexDigit_injOn _ (Nat.mod_lt _ (by omega)) _ (Nat.mod_lt _ (by omega)) hlo
          have : a = c := by omega
          subst this
          exact congrArg (a :: ·)
            (ih rest₂ (fun x hx => h₁ x (by simp [hx])) (fun x hx => h₂ x (by simp [hx])) htl)

/-! ## sidekiq.Sidekiq and sidekiq.SidekiqQueue (value-level data flow)

`Sidekiq.push_to_queue` copies the caller's map, inserts a fresh job id,
lets the connector stamp a timestamp (whose value `connector_now` is the
clock reading the connector returns), stamps it under `SIDEKIQ_ENQUEUED`,
and returns the id together with the map.  (The heap model further below
makes the `dict(...)` copies explicit; here maps are values, so the copy
is the identity.) -/

def Sidekiq.push_to_queue (randomBytes : List Nat) (connector_now : ℚ)
    (mapped_args : PyMap) : String × PyMap :=
  let jid := Sidekiq.generate_jid randomBytes
  let result := mapSet mapped_args SIDEKIQ_JOB_ID (.str jid)
  let result := mapSet result SIDEKIQ_ENQUEUED (.num connector_now)
  (jid, result)

/-- The method `SidekiqQueue.enqueue`: capture one clock reading `now`, assemble the
payload (class, schedule-at, args, created-at, queue name), delegate to
`Sidekiq.push_to_queue`, and merge the returned job id into the result. -/
def SidekiqQueue.enqueue (klass : String) (queue_name : String) (now delay : ℚ)
    (args : List PyVal) (randomBytes : List Nat) (connector_now : ℚ) : PyMap :=
  let schedule_at : ℚ := now + delay
  let data : PyMap :=
    mapSet (mapSet (mapSet (mapSet (mapSet [] SIDEKIQ_CLASS_NAME (.str klass))
      SIDEKIQ_SCHEDULE_AT (.num schedule_at))
      SIDEKIQ_ARGS (.list args))
      SIDEKIQ_CREATED (.num now))
      SIDEKIQ_QUEUE (.str queue_name)
  let p := Sidekiq.push_to_queue randomBytes connector_now data
  mapSet p.2 SIDEKIQ_JOB_ID (.str p.1)

/-- Python `str(...)` on payload values; only the string case is ever
reached here (the job id is stored as a string). -/
def PyVal.pyStr : PyVal → String
  | .str s => s
  | .num q => toString q
  | .bool b => if b then "True" else "False"
  | .list _ => "[...]"

/-- The method `Job._perform_in`: enqueue on the owning queue, then extract the job
id from the returned payload (or `none` if the key is absent). -/
def Job.perform_in (klass queue_name : String) (now : ℚ) (time_span : ℚ)
    (args : List PyVal) (randomBytes : List Nat) (connector_now : ℚ) : Option String :=
  let result := SidekiqQueue.enqueue klass queue_name now time_span args randomBytes connector_now
  match mapGet result SIDEKIQ_JOB_ID with
  | some v => some v.pyStr
  | none => none

/-- The method `Job._perform_async`: delegate to `_perform_in` with `timedelta()`,
the zero duration. -/
def Job.perform_async (klass queue_name : String) (now : ℚ)
    (args : List PyVal) (randomBytes : List Nat) (connector_now : ℚ) : Option String :=
  Job.perform_in klass queue_name now 0 args randomBytes connector_now

/-- C2: the payload produced by enqueueing with delay `d ≥ 0` has its
"at" field equal to `now + d` and its "created_at" field equal to `now`
(one clock reading, so "at" = "created_at" + d), its "args" field the
ordered argument list, its "class" field the job's class identifier and
its "queue" field the queue's short name. -/
theorem C2_schedule_after_payload (klass queue_name : String) (now d : ℚ)
    (hd : 0 ≤ d) (args : List PyVal) (randomBytes : List Nat) (connector_now : ℚ) :
    mapGet (SidekiqQueue.enqueue klass queue_name now d args randomBytes connector_now)
      SIDEKIQ_SCHEDULE_AT = some (.num (now + d)) ∧
    mapGet (SidekiqQueue.enqueue klass queue_name now d args randomBytes connector_now)
      SIDEKIQ_CREATED = some (.num now) ∧
    mapGet (SidekiqQueue.enqueue klass queue_name now d args randomBytes connector_now)
      SIDEKIQ_ARGS = some (.list args) ∧
    mapGet (SidekiqQueue.enqueue klass queue_name now d args randomBytes connector_now)
      SIDEKIQ_CLASS_NAME = some (.str klass) ∧
    mapGet (SidekiqQueue.enqueue klass queue_name now d args randomBytes connector_now)
      SIDEKIQ_QUEUE = some (.str queue_name) := by
  refine ⟨?_, ?_, ?_, ?_, ?_⟩ <;>
    simp [SidekiqQueue.enqueue, Sidekiq.push_to_queue, mapGet_mapSet,
      SIDEKIQ_SCHEDULE_AT, SIDEKIQ_CREATED, SIDEKIQ_ARGS, SIDEKIQ_CLASS_NAME,
      SIDEKIQ_QUEUE, SIDEKIQ_JOB_ID, SIDEKIQ_ENQUEUED]

/-- Witness for C2 at the spec's scenario: class "SayHello" on queue
"low" with args ["Hello"] and delay 60. -/
theorem C2_schedule_after_payload_witness :
    (0 : ℚ) ≤ 60 ∧
    (mapGet (SidekiqQueue.enqueue "SayHello" "low" 100 60 [.str "Hello"]
        (List.replicate 12 0) 101) SIDEKIQ_SCHEDULE_AT = some (.num (100 + 60)) ∧
     mapGet (SidekiqQueue.enqueue "SayHello" "low" 100 60 [.str "Hello"]
        (List.replicate 12 0) 101) SIDEKIQ_CREATED = some (.num 100) ∧
     mapGet (SidekiqQueue.enqueue "SayHello" "low" 100 60 [.str "Hello"]
        (List.replicate 12 0) 101) SIDEKIQ_ARGS = some (.list [.str "Hello"]) ∧
     mapGet (SidekiqQueue.enqueue "SayHello" "low" 100 60 [.str "Hello"]
        (List.replicate 12 0) 101) SIDEKIQ_CLASS_NAME = some (.str "SayHello") ∧
     mapGet (SidekiqQueue.enqueue "SayHello" "low" 100 60 [.str "Hello"]
        (List.replicate 12 0) 101) SIDEKIQ_QUEUE = some (.str "low")) :=
  ⟨by norm_num,
   C2_schedule_after_payload "SayHello" "low" 100 60 (by norm_num) [.str "Hello"]
     (List.replicate 12 0) 101⟩

/-- C6: `scheduleNow(args)` (`_perform_async`) returns exactly what
`scheduleAfter` (`_perform_in`) returns with a zero delay and the same
arguments, given the same clock readings and randomness. -/
theorem C6_perform_async_eq_perform_in_zero (klass queue_name : String) (now : ℚ)
    (args : List PyVal) (randomBytes : List Nat) (connector_now : ℚ) :
    Job.perform_async klass queue_name now args randomBytes connector_now
      = Job.perform_in klass queue_name now 0 args randomBytes connector_now := rfl

/-- C3: a successful enqueue returns the generated job id, which is a
24-character string of hexadecimal digits (12 random bytes hex-encoded),
and two enqueues whose random byte draws differ return different ids. -/
theorem C3_jid_length_hex_fresh (b₁ b₂ : List Nat)
    (h₁ : b₁.length = number_of_bytes_in_jid) (h₂ : b₂.length = number_of_bytes_in_jid)
    (hb₁ : ∀ b ∈ b₁, b < 256) (hb₂ : ∀ b ∈ b₂, b < 256) (hne : b₁ ≠ b₂)
    (klass queue_name : String) (now d connector_now : ℚ) (args : List PyVal) :
    Job.perform_in klass queue_name now d args b₁ connector_now
      = some (Sidekiq.generate_jid b₁) ∧
    (Sidekiq.generate_jid b₁).length = 24 ∧
    (∀ c ∈ (Sidekiq.generate_jid b₁).data, c ∈ hexDigits) ∧
    Sidekiq.generate_jid b₁ ≠ Sidekiq.generate_jid b₂ := by
  refine ⟨?_, ?_, ?_, ?_⟩
  · simp [Job.perform_in, SidekiqQueue.enqueue, Sidekiq.push_to_queue,
      mapGet_mapSet, PyVal.pyStr]
  · show (hexEncodeBytes b₁).length = 24
    rw [hexEncodeBytes_length, h₁]
    rfl
  · exact hexEncodeBytes_mem b₁ hb₁
  · intro h
    exact hne (hexEncodeBytes_inj b₁ b₂ hb₁ hb₂ (congrArg String.data h))

/-- Witness for C3 at two concrete 12-byte draws. -/
theorem C3_jid_length_hex_fresh_witness :
    ((List.replicate 12 0 : List Nat).length = number_of_bytes_in_jid ∧
     (1 :: List.replicate 11 255 : List Nat).length = number_of_bytes_in_jid ∧
     (∀ b ∈ (List.replicate 12 0 : List Nat), b < 256) ∧
     (∀ b ∈ (1 :: List.replicate 11 255 : List Nat), b < 256) ∧
     (List.replicate 12 0 : List Nat) ≠ 1 :: List.replicate 11 255) ∧
    (Job.perform_in "SayHello" "low" 100 60 [.str "Hello"] (List.replicate 12 0) 101
       = some (Sidekiq.generate_jid (List.replicate 12 0)) ∧
     (Sidekiq.generate_jid (List.replicate 12 0)).length = 24 ∧
     (∀ c ∈ (Sidekiq.generate_jid (List.replicate 12 0)).data, c ∈ hexDigits) ∧
     Sidekiq.generate_jid (List.replicate 12 0)
       ≠ Sidekiq.generate_jid (1 :: List.replicate 11 255)) :=
  ⟨⟨by decide, by decide, by decide, by decide, by decide⟩,
   C3_jid_length_hex_fresh (List.replicate 12 0) (1 :: List.replicate 11 255)
     (by decide) (by decide) (by decide) (by decide) (by decide)
     "SayHello" "low" 100 60 101 [.str "Hello"]⟩

/-! ## connector.RedisConnector

The connection state lives in `Connector.__connected` (here `connected`),
toggled only through `_toggle_connection_state`; the Redis handle lives
in `RedisConnector.__redis_connection`.  Each operation returns the
post-state together with an `Except` result: a Python `raise` happens
before any mutation, so the error branch returns the receiver unchanged. -/

structure Redis where
  host : String
  port : Int
  db : Int

structure RedisConnector where
  host : String
  port : Int
  db : Int
  connected : Bool
  redis_connection : Option Redis

/-- The constructor `RedisConnector.__init__` (which chains to `Connector.__init__`):
store the configuration, no live handle, disconnected. -/
def RedisConnector.init (host : String) (port db : Int) : RedisConnector :=
  { host := host, port := port, db := db, connected := false, redis_connection := none }

/-- The method `RedisConnector.connect`: raise `ConnectionError("Already connected")`
when connected; otherwise open a `Redis(host, port, db)` handle and
toggle the connection state. -/
def RedisConnector.connect (c : RedisConnector) : RedisConnector × Except String Unit :=
  if c.connected then (c, .error "Already connected")
  else
    ({ c with
        redis_connection := some (Redis.mk c.host c.port c.db)
        connected := !c.connected },
     .ok ())

/-- The method `RedisConnector.disconnect`: raise `ConnectionError("Not connected")`
when disconnected; otherwise toggle the state and drop the handle. -/
def RedisConnector.disconnect (c : RedisConnector) : RedisConnector × Except String Unit :=
  if !c.connected then (c, .error "Not connected")
  else ({ c with connected := !c.connected, redis_connection := none }, .ok ())

/-- A write against the Redis backend. -/
inductive RedisOp where
  | sadd (key member : String)
  | lpush (key value : String)

mutual

/-- JSON rendering of a payload value (stdlib `json.dumps`; string
escaping is elided — the payload strings exercised here contain no
characters needing escapes). -/
def PyVal.toJson : PyVal → String
  | .str s => "\"" ++ s ++ "\""
  | .num q => toString q
  | .bool b => if b then "true" else "false"
  | .list l => "[" ++ PyVal.toJsonItems l ++ "]"

/-- Comma-separated rendering of the items of a JSON array. -/
def PyVal.toJsonItems : List PyVal → String
  | [] => ""
  | [x] => PyVal.toJson x
  | x :: rest => PyVal.toJson x ++ ", " ++ PyVal.toJsonItems rest

end

/-- Stdlib `json.dumps` on a dict. -/
def to_json_str (m : PyMap) : String :=
  "\x7b" ++
    String.intercalate ", " (m.map fun kv => "\"" ++ kv.1 ++ "\": " ++ kv.2.toJson) ++
    "\x7d"

/-- The method `RedisConnector.push_to_queue`: raise when not connected or without a
handle; otherwise stamp the clock reading `now` into a copy of the
payload, serialize it, `sadd` the queue name into the `"queues"` set and
`lpush` the record onto the list keyed by `SIDEKIQ_QUEUE_TPL.format(queue_name)`,
returning `now`.  The two backend writes are returned in order. -/
def RedisConnector.push_to_queue (c : RedisConnector) (queue_name : String)
    (values : PyMap) (tstamp_key_name : String) (now : ℚ) :
    RedisConnector × Except String (List RedisOp × ℚ) :=
  if !c.connected || c.redis_connection.isNone then (c, .error "Not connected")
  else
    let data := mapSet values tstamp_key_name (.num now)
    let encoded_data := to_json_str data
    (c, .ok ([.sadd SIDEKIQ_QUEUES_NAME queue_name,
              .lpush (SIDEKIQ_QUEUE_TPL_format queue_name) encoded_data], now))

def isErr {ε α : Type} : Except ε α → Bool
  | .error _ => true
  | .ok _ => false

/-- Invariant relating the two state fields: a connected instance holds a
live handle.  It holds for `init` and is preserved by every operation. -/
def RedisConnector.inv (c : RedisConnector) : Prop :=
  c.connected = true → c.redis_connection.isSome = true

theorem RedisConnector.inv_init (host : String) (port db : Int) :
    (RedisConnector.init host port db).inv := by
  intro h
  simp [RedisConnector.init] at h

theorem RedisConnector.inv_step (c : RedisConnector) (hinv : c.inv) :
    (c.connect).1.inv ∧ (c.disconnect).1.inv := by
  obtain ⟨h, p, d, conn, rc⟩ := c
  cases conn <;>
    simp_all [RedisConnector.connect, RedisConnector.disconnect, RedisConnector.inv]

/-- C4: on the Redis connector, `push_to_queue` errors exactly when not
connected, `connect` errors exactly when connected, `disconnect` errors
exactly when not connected, and each erroring call leaves the state
unchanged (`push_to_queue` never changes it at all). -/
theorem C4_connection_state_errors (c : RedisConnector) (hinv : c.inv)
    (queue_name tstamp_key_name : String) (values : PyMap) (now : ℚ) :
    isErr (c.push_to_queue queue_name values tstamp_key_name now).2 = !c.connected ∧
    isErr (c.connect).2 = c.connected ∧
    isErr (c.disconnect).2 = !c.connected ∧
    (c.push_to_queue queue_name values tstamp_key_name now).1 = c ∧
    (c.connected = true → (c.connect).1 = c) ∧
    (c.connected = false → (c.disconnect).1 = c) := by
  obtain ⟨h, p, d, conn, rc⟩ := c
  cases conn with
  | false =>
      simp [RedisConnector.push_to_queue, RedisConnector.connect,
        RedisConnector.disconnect, isErr]
  | true =>
      have hsome : rc.isSome = true := hinv rfl
      obtain ⟨r, rfl⟩ := Option.isSome_iff_exists.mp hsome
      simp [RedisConnector.push_to_queue, RedisConnector.connect,
        RedisConnector.disconnect, isErr]

/-- Witness for C4 on a fresh, never-connected connector. -/
theorem C4_connection_state_errors_witness :
    (RedisConnector.init "localhost" 6379 0).inv ∧
    (isErr ((RedisConnector.init "localhost" 6379 0).push_to_queue "low" [] SIDEKIQ_ENQUEUED 100).2
        = !(RedisConnector.init "localhost" 6379 0).connected ∧
     isErr ((RedisConnector.init "localhost" 6379 0).connect).2
        = (RedisConnector.init "localhost" 6379 0).connected ∧
     isErr ((RedisConnector.init "localhost" 6379 0).disconnect).2
        = !(RedisConnector.init "localhost" 6379 0).connected ∧
     ((RedisConnector.init "localhost" 6379 0).push_to_queue "low" [] SIDEKIQ_ENQUEUED 100).1
        = RedisConnector.init "localhost" 6379 0 ∧
     ((RedisConnector.init "localhost" 6379 0).connected = true →
        ((RedisConnector.init "localhost" 6379 0).connect).1 = RedisConnector.init "localhost" 6379 0) ∧
     ((RedisConnector.init "localhost" 6379 0).connected = false →
        ((RedisConnector.init "localhost" 6379 0).disconnect).1 = RedisConnector.init "localhost" 6379 0)) :=
  ⟨RedisConnector.inv_init "localhost" 6379 0,
   C4_connection_state_errors (RedisConnector.init "localhost" 6379 0)
     (RedisConnector.inv_init "localhost" 6379 0) "low" SIDEKIQ_ENQUEUED [] 100⟩

/-- C8: a connected push performs exactly two backend writes in order —
`sadd("queues", queue_name)`, then `lpush` of the serialized payload with
the timestamp field set, onto the list whose key is the queue's default
full name `"queue:" + queue_name` — and returns exactly the instant it
stamped into the timestamp field. -/
theorem C8_push_writes (c : RedisConnector) (hc : c.connected = true)
    (hr : c.redis_connection.isSome = true)
    (queue_name tstamp_key_name : String) (values : PyMap) (now : ℚ) :
    (c.push_to_queue queue_name values tstamp_key_name now).2 =
      .ok ([RedisOp.sadd SIDEKIQ_QUEUES_NAME queue_name,
            RedisOp.lpush (EmptySidekiqNamespace.get_full_name queue_name)
              (to_json_str (mapSet values tstamp_key_name (.num now)))], now) := by
  obtain ⟨r, hrc⟩ := Option.isSome_iff_exists.mp hr
  simp [RedisConnector.push_to_queue, hc, hrc, EmptySidekiqNamespace.get_full_name]

/-- Witness for C8 on a freshly connected connector. -/
theorem C8_push_writes_witness :
    (((RedisConnector.init "localhost" 6379 0).connect).1.connected = true ∧
     ((RedisConnector.init "localhost" 6379 0).connect).1.redis_connection.isSome = true) ∧
    (((RedisConnector.init "localhost" 6379 0).connect).1.push_to_queue "low"
        [(SIDEKIQ_ARGS, .list [.str "Hello"])] SIDEKIQ_ENQUEUED 100).2 =
      .ok ([RedisOp.sadd SIDEKIQ_QUEUES_NAME "low",
            RedisOp.lpush (EmptySidekiqNamespace.get_full_name "low")
              (to_json_str (mapSet [(SIDEKIQ_ARGS, .list [.str "Hello"])]
                SIDEKIQ_ENQUEUED (.num 100)))], 100) :=
  ⟨⟨rfl, rfl⟩,
   C8_push_writes ((RedisConnector.init "localhost" 6379 0).connect).1 rfl rfl
     "low" SIDEKIQ_ENQUEUED [(SIDEKIQ_ARGS, .list [.str "Hello"])] 100⟩

/-! ## Connector.__exit__ (scoped acquisition) -/

/-- The method `Connector.__exit__` on the Redis connector: disconnect when the
connection state is set, hand any in-flight exception to the injected
error handler as `handle("Connection failure", value)` (the returned list
records the handler calls), and return `True`, which suppresses the
exception. -/
def RedisConnector.exit_scope (c : RedisConnector) (value : Option String) :
    RedisConnector × List (String × String) × Bool :=
  let c₁ := if c.connected then (c.disconnect).1 else c
  let handled := match value with
    | some v => [("Connection failure", v)]
    | none => []
  (c₁, handled, true)

/-- C7: leaving the connector's scope always returns `True` (suppressing
any exception), ends disconnected (disconnecting exactly when it was
connected), and forwards the in-flight exception, if any, to the error
handler. -/
theorem C7_exit_suppresses (c : RedisConnector) (value : Option String) :
    (c.exit_scope value).2.2 = true ∧
    (c.exit_scope value).1.connected = false ∧
    (c.exit_scope value).2.1 = value.toList.map (fun v => ("Connection failure", v)) := by
  obtain ⟨h, p, d, conn, rc⟩ := c
  cases conn <;> cases value <;>
    simp [RedisConnector.exit_scope, RedisConnector.disconnect]

/-! ## The dispatcher's connector call

`Sidekiq.push_to_queue` invokes
`self.__connector.push_to_queue(queue_name, result, SIDEKIQ_ENQUEUED,
self.__queue_namespace)`, which must bind against the connector's
declared signature `push_to_queue(self, queue_name, values,
tstamp_key_name)` (abstract `Connector` and `RedisConnector` alike). -/

/-- A positional argument of the dispatcher's connector call. -/
inductive PushArg where
  | queueRef (name : String)
  | payloadRef (m : PyMap)
  | keyName (s : String)
  | namespaceRef (ns : Option String)

/-- The parameters (beyond `self`) of the `Connector.push_to_queue`
signature, repeated verbatim by `RedisConnector.push_to_queue`. -/
def Connector.push_to_queue_params : List String :=
  ["queue_name", "values", "tstamp_key_name"]

/-- The positional arguments (beyond `self`) that `Sidekiq.push_to_queue`
passes to `self.__connector.push_to_queue`: the queue reference exactly
as received (no name resolution), the copied payload, the enqueued field
name, and the dispatcher's queue namespace. -/
def Sidekiq.connector_call_args (queue_name : String) (result : PyMap)
    (queue_namespace : Option String) : List PushArg :=
  [.queueRef queue_name, .payloadRef result, .keyName SIDEKIQ_ENQUEUED,
   .namespaceRef queue_namespace]

/-- A Python positional call onto a signature without default values or
varargs binds exactly when the argument count matches the parameter
count; otherwise the call raises `TypeError`. -/
def pyCallBinds (params : List String) (args : List PushArg) : Bool :=
  params.length == args.length

/-- C1 (failing evaluation): the dispatcher's connector call passes four
positional arguments to the three-parameter `Connector.push_to_queue`
signature, so it cannot bind, and its queue-name argument is the
unresolved queue reference "low", not the resolved full name
"queue:low". -/
theorem C1_dispatcher_connector_call :
    pyCallBinds Connector.push_to_queue_params
      (Sidekiq.connector_call_args "low" [] none) = false ∧
    (Sidekiq.connector_call_args "low" [] none).head? = some (.queueRef "low") ∧
    "low" ≠ SidekiqQueue.get_full_name ⟨0, "low"⟩ := by
  refine ⟨rfl, rfl, fun h => ?_⟩
  exact absurd (congrArg String.length h) (by decide)

/-! ## Heap model of the dict mutations

Python dicts are mutable heap objects and `dict(x)` allocates a fresh
copy; a heap is the list of dict states in allocation order, and a
caller-supplied dict is a reference (index) into it. -/

abbrev Heap := List PyMap

def heapGet (h : Heap) (r : Nat) : PyMap := h.getD r []

def heapSet (h : Heap) (r : Nat) (m : PyMap) : Heap := h.set r m

/-- Allocation `dict(...)`: allocate a fresh dict, returning the heap and the new
reference. -/
def heapAlloc (h : Heap) (m : PyMap) : Heap × Nat := (h ++ [m], h.length)

theorem heapGet_alloc (h : Heap) (m : PyMap) (r : Nat) (hr : r < h.length) :
    heapGet (h ++ [m]) r = heapGet h r := by
  simp [heapGet, List.getD_eq_getElem?_getD, List.getElem?_append, hr]

theorem heapGet_set_ne (h : Heap) (i : Nat) (m : PyMap) (r : Nat) (hir : i ≠ r) :
    heapGet (heapSet h i m) r = heapGet h r := by
  simp [heapGet, heapSet, List.getD_eq_getElem?_getD, List.getElem?_set_ne hir]

/-- Heap-level body of `RedisConnector.push_to_queue` on a connected
instance: `data = dict(values)` copies the caller's dict, the timestamp
is stamped into the copy, and the serialized copy goes to the backend
(the backend writes do not touch the heap); returns the heap and the
timestamp. -/
def RedisConnector.push_to_queue_heap (h : Heap) (values : Nat)
    (tstamp_key_name : String) (now : ℚ) : Heap × ℚ :=
  let p := heapAlloc h (heapGet h values)
  let h₁ := heapSet p.1 p.2 (mapSet (heapGet p.1 p.2) tstamp_key_name (.num now))
  (h₁, now)

/-- Heap-level body of `Sidekiq.push_to_queue`: the copy `result = dict(mapped_args)`
copies the caller's dict, the job id is inserted into the copy, the
connector pushes (itself copying again), and the returned timestamp is
stamped into the copy; returns the heap, the id and the result
reference. -/
def Sidekiq.push_to_queue_heap (h : Heap) (mapped_args : Nat)
    (randomBytes : List Nat) (connector_now : ℚ) : Heap × String × Nat :=
  let jid := Sidekiq.generate_jid randomBytes
  let p := heapAlloc h (heapGet h mapped_args)
  let h₁ := heapSet p.1 p.2 (mapSet (heapGet p.1 p.2) SIDEKIQ_JOB_ID (.str jid))
  let q := RedisConnector.push_to_queue_heap h₁ p.2 SIDEKIQ_ENQUEUED connector_now
  let h₂ := heapSet q.1 p.2 (mapSet (heapGet q.1 p.2) SIDEKIQ_ENQUEUED (.num q.2))
  (h₂, jid, p.2)

theorem redis_push_heap_frame (h : Heap) (values : Nat) (tstamp_key_name : String)
    (now : ℚ) (r : Nat) (hr : r < h.length) :
    heapGet (RedisConnector.push_to_queue_heap h values tstamp_key_name now).1 r
      = heapGet h r := by
  simp only [RedisConnector.push_to_queue_heap, heapAlloc]
  rw [heapGet_set_ne _ _ _ _ (by omega), heapGet_alloc _ _ _ hr]

theorem redis_push_heap_length (h : Heap) (values : Nat) (tstamp_key_name : String)
    (now : ℚ) :
    (RedisConnector.push_to_queue_heap h values tstamp_key_name now).1.length
      = h.length + 1 := by
  simp [RedisConnector.push_to_queue_heap, heapAlloc, heapSet]

/-- C10: the dispatcher's push and the concrete connector's push leave
the caller-supplied dict unchanged — the job id and the timestamp field
are written only into fresh copies. -/
theorem C10_caller_map_unchanged (h : Heap) (r : Nat) (hr : r < h.length)
    (randomBytes : List Nat) (connector_now : ℚ) (tstamp_key_name : String) (now : ℚ) :
    heapGet (Sidekiq.push_to_queue_heap h r randomBytes connector_now).1 r
      = heapGet h r ∧
    heapGet (RedisConnector.push_to_queue_heap h r tstamp_key_name now).1 r
      = heapGet h r := by
  refine ⟨?_, redis_push_heap_frame h r tstamp_key_name now r hr⟩
  simp only [Sidekiq.push_to_queue_heap, heapAlloc]
  rw [heapGet_set_ne _ _ _ _ (by omega)]
  rw [redis_push_heap_frame _ _ _ _ _ (by simp [heapSet]; omega)]
  rw [heapGet_set_ne _ _ _ _ (by omega), heapGet_alloc _ _ _ hr]

/-- Witness for C10 on a one-dict heap. -/
theorem C10_caller_map_unchanged_witness :
    0 < ([[(SIDEKIQ_ARGS, PyVal.list [.str "Hello"])]] : Heap).length ∧
    (heapGet (Sidekiq.push_to_queue_heap [[(SIDEKIQ_ARGS, PyVal.list [.str "Hello"])]]
        0 (List.replicate 12 0) 101).1 0
      = heapGet [[(SIDEKIQ_ARGS, PyVal.list [.str "Hello"])]] 0 ∧
     heapGet (RedisConnector.push_to_queue_heap [[(SIDEKIQ_ARGS, PyVal.list [.str "Hello"])]]
        0 SIDEKIQ_ENQUEUED 100).1 0
      = heapGet [[(SIDEKIQ_ARGS, PyVal.list [.str "Hello"])]] 0) :=
  ⟨by decide,
   C10_caller_map_unchanged [[(SIDEKIQ_ARGS, PyVal.list [.str "Hello"])]] 0 (by decide)
     (List.replicate 12 0) 101 SIDEKIQ_ENQUEUED 100⟩

end Pykiq
